import Mathlib

/-!
Verification development for the CyVerse iRODS policy core
(checksum / replication / residency / throttle / rule composition).

The Python rule bases are shallowly embedded:
pure helpers become Lean functions; the iRODS callback (microservices,
GenQuery, delayExec) becomes a record of oracle functions plus an explicit
effect trace; the module-level mutable session dictionaries become records
of optional fields passed and returned explicitly; Python exceptions
(KeyError, IndexError, TypeError, ValueError) become `Except` errors; and
a Python value of dynamic type (int / None / dict) returned by a rule
becomes the `RetVal` sum.
-/

/-- Result record of an iRODS microservice call: the `ret['status']` flag
and the `ret['code']` integer. -/
structure MsiRet where
  status : Bool
  code : Int
deriving DecidableEq, Repr

/-- A Python value returned by a rule: an integer status, `None`
(a function falling off its end), or the msi result dictionary. -/
inductive RetVal where
  | int (n : Int)
  | noneVal
  | dict (r : MsiRet)
deriving DecidableEq, Repr

/-- Observable side effects of a rule execution: server-log lines,
`msiDataObjChksum` calls (path, selector), `msiDataObjRepl` calls
(path, parameter string), `msiSetDefaultResc` calls (resource, option),
and `delayExec` tasks (condition, rule text). -/
structure Fx where
  log : List String
  chksumCalls : List (String × String)
  replCalls : List (String × String)
  setResc : List (String × String)
  tasks : List (String × String)
deriving DecidableEq, Repr

def Fx.nil : Fx := ⟨[], [], [], [], []⟩

def Fx.app (a b : Fx) : Fx :=
  ⟨a.log ++ b.log, a.chksumCalls ++ b.chksumCalls, a.replCalls ++ b.replCalls,
   a.setResc ++ b.setResc, a.tasks ++ b.tasks⟩

/-- A `condInput` key/value map. -/
def KVMap := List (String × String)

/-- The iRODS callback and catalog, modelled as oracles.  `query1`,
`query2` and `query3` stand for GenQuery over one, two and three output
columns; their first argument is the column list and their second the
condition string, built exactly as in the source.  `default_resc` stands
for `irods_extra.default_resc()` (read from server_config.json). -/
structure CB where
  msiDataObjChksum : String → String → MsiRet
  msiDataObjRepl : String → String → MsiRet
  msiSetDefaultResc : String → String → MsiRet
  query1 : String → String → List String
  query2 : String → String → List (String × String)
  query3 : String → String → List (String × String × String)
  default_resc : String

namespace irods_extra

/-- `irods_extra.SUCCESS` -/
def SUCCESS : Int := 0

/-- `irods_extra.FILE_CREATE` -/
def FILE_CREATE : String := "1"

def OPEN_FLAG_R : String := "0"
def OPEN_FLAG_W : String := "513"
def OPEN_FLAG_W_CREATE : String := "577"
def OPEN_FLAG_WP : String := "514"
def OPEN_FLAG_WP_CREATE : String := "578"

/-- `irods_extra.replica_truncated` -/
def replica_truncated (open_flags : String) : Bool :=
  open_flags == OPEN_FLAG_W || open_flags == OPEN_FLAG_W_CREATE ||
  open_flags == OPEN_FLAG_WP || open_flags == OPEN_FLAG_WP_CREATE

/-- `irods_extra.has_key` -/
def has_key (kv_map : KVMap) (key : String) : Bool :=
  (kv_map.find? (fun kv => kv.1 == key)).isSome

/-- `irods_extra.value`: the value of the key, or "" when absent. -/
def value (kv_map : KVMap) (key : String) : String :=
  match kv_map.find? (fun kv => kv.1 == key) with
  | some kv => kv.2
  | none => ""

/-- Split a char list at its last occurrence of `sep`
(Python `rsplit(sep, 1)` with a hit); `none` when `sep` is absent. -/
def rsplitLast (sep : Char) : List Char → Option (List Char × List Char)
  | [] => none
  | c :: rest =>
    match rsplitLast sep rest with
    | some (a, b) => some (c :: a, b)
    | none => if c == sep then some ([], rest) else none

/-- `irods_extra.split_path`: split a data-object path into collection
path and data name at the last slash.  (The source unpacks
`data_path.rsplit('/', 1)` into a pair; all paths reaching it are
absolute, so a slash is present.) -/
def split_path (data_path : String) : String × String :=
  match rsplitLast '/' data_path.data with
  | some (a, b) => (⟨a⟩, ⟨b⟩)
  | none => (data_path, "")

/-- `irods_extra.root_resc`: the part of a resource hierarchy before the
first semicolon (`resc_hier.split(';', 1)[0]`). -/
def root_resc (resc_hier : String) : String :=
  ⟨resc_hier.data.takeWhile (fun c => c != ';')⟩

end irods_extra

namespace irods_errors

/-!
Constants of the external `irods_errors` module (the iRODS error table).
The exact numerals are outside this repository; only their signs and
pairwise distinctness matter to the policy code, and the values used here
are the standard iRODS ones.
-/

def RULE_ENGINE_CONTINUE : Int := 5000000
def CAT_NOT_ROWS_FOUND : Int := -808000
def CAT_UNKNOWN_FILE : Int := -817000
def SYS_NOT_ALLOWED : Int := -169000
def SYS_RESC_DOES_NOT_EXIST : Int := -78000
def USER_CHKSUM_MISMATCH : Int := -314000

end irods_errors

namespace throttle

/-- `throttle.next_delay`: the module counter `__delay_time` starts at -1;
each call increments it and returns it.  The counter is threaded
explicitly. -/
def next_delay (delay_time : Int) : Int × Int := (delay_time + 1, delay_time + 1)

end throttle

namespace core

/-- `core._RE_DONE` -/
def _RE_DONE : Int := 0

/-- Python string formatting of an optional value (`str(None) = "None"`). -/
def pyShowOpt : Option String → String
  | none => "None"
  | some s => s

/-- The value of `fail_resp if fail_resp else res` in `_compose_rules`:
Python `None` and `0` are both falsy, so a configured failure code of 0
is replaced by the failing rule response `res`. -/
def failRespValue (fail_resp : Option Int) (res : Int) : Int :=
  match fail_resp with
  | none => res
  | some c => if c != 0 then c else res

/-- The loop of `core._compose_rules` over the rule bases.  The input list
holds, in order, the outcome of invoking each bound rule (an exception or
a returned value); the result is the composed response (or the escaping
exception) paired with how many rules were actually invoked.  Comparing a
non-integer rule return with `irods_extra.SUCCESS` is a Python
`TypeError`. -/
def composeGo (success_resp : Int) (fail_resp : Option Int) (cont_on_fail : Bool) :
    List (Except String RetVal) → Int → Except String Int × Nat
  | [], resp => (.ok resp, 0)
  | h :: rest, resp =>
    match h with
    | .error e => (.error e, 1)
    | .ok (.noneVal) => (.error "TypeError: not supported between NoneType and int", 1)
    | .ok (.dict _) => (.error "TypeError: not supported between dict and int", 1)
    | .ok (.int res) =>
      if res < irods_extra.SUCCESS then
        let resp2 := if resp == success_resp then failRespValue fail_resp res else resp
        if cont_on_fail then
          let (r, n) := composeGo success_resp fail_resp cont_on_fail rest resp2
          (r, n + 1)
        else
          (.ok resp2, 1)
      else
        let (r, n) := composeGo success_resp fail_resp cont_on_fail rest resp
        (r, n + 1)

/-- `core._compose_rules`: iterate the bound rules in order starting from
`resp = success_resp`. -/
def _compose_rules (results : List (Except String RetVal)) (success_resp : Int)
    (fail_resp : Option Int) (cont_on_fail : Bool) : Except String Int × Nat :=
  composeGo success_resp fail_resp cont_on_fail results success_resp

end core

/-- A shorthand for an effect trace holding one log line. -/
def logFx (m : String) : Fx := ⟨[m], [], [], [], []⟩

/-- The `DataObjInp` event payload fields read by the create/open
handlers. -/
structure DataObjInp where
  objPath : String
  openFlags : String
  condInput : KVMap

/-- The parsed `JsonInput.buf` of a `replica_close` event: presence and
value of its `compute_checksum` field. -/
structure JsonInp where
  compute_checksum : Option Bool

/-- The `checksum` module session dictionary `__write_props`: each field
is `none` when its key is absent. -/
structure ChksumProps where
  data_path : Option String := none
  resc_hier : Option String := none
  needs_checksum : Option Bool := none
deriving DecidableEq, Repr

def ChksumProps.empty : ChksumProps := {}

/-- The `replication` module session dictionary `__write_props`. -/
structure ReplProps where
  data_path : Option String := none
  resc_hier : Option String := none
  created : Option Bool := none
  modified : Option Bool := none
deriving DecidableEq, Repr

def ReplProps.empty : ReplProps := {}

namespace checksum

/-- The per-replica loop of `checksum._ensure_replicas_checksum` over the
`DATA_REPL_NUM` rows: one `msiDataObjChksum` call per row, logging each
failure and keeping the first failure code. -/
def chksumRows (cb : CB) (data_path resc_hier : String) :
    List String → Int → Int × Fx
  | [], res => (res, Fx.nil)
  | rec :: rest, res =>
    let sel := "replNum=" ++ rec
    let ret := cb.msiDataObjChksum data_path sel
    let fxCall : Fx := ⟨[], [(data_path, sel)], [], [], []⟩
    if ret.status then
      let (r, fx) := chksumRows cb data_path resc_hier rest res
      (r, fxCall.app fx)
    else
      let msg := "Failed to generate checksums for the replicas of " ++ data_path ++
        " on " ++ resc_hier ++ " (" ++ toString ret.code ++ ")"
      let res2 := if res == irods_extra.SUCCESS then ret.code else res
      let (r, fx) := chksumRows cb data_path resc_hier rest res2
      (r, (fxCall.app (logFx msg)).app fx)

/-- `checksum._ensure_replicas_checksum`.  With an empty `resc_hier` one
`ChksumAll=` call is made and the raw msi result dictionary is returned
(`return ret`); on failure of that call the log format string
`"... of {} ({}}"` is malformed, so `str.format` raises a `ValueError`
before anything is logged or returned.  With a non-empty `resc_hier` the
matching `DATA_REPL_NUM` rows are checksummed one by one. -/
def _ensure_replicas_checksum (cb : CB) (data_path : String)
    (resc_hier : String := "") : Except String RetVal × Fx :=
  if resc_hier == "" then
    let ret := cb.msiDataObjChksum data_path "ChksumAll="
    let fxCall : Fx := ⟨[], [(data_path, "ChksumAll=")], [], [], []⟩
    if ret.status then
      (.ok (.dict ret), fxCall)
    else
      (.error "ValueError: Single \x7d encountered in format string", fxCall)
  else
    let (coll_path, data_name) := irods_extra.split_path data_path
    let cond := "COLL_NAME = \x27" ++ coll_path ++ "\x27 and DATA_NAME = \x27" ++
      data_name ++ "\x27 and DATA_RESC_HIER = \x27" ++ resc_hier ++ "\x27"
    let (res, fx) := chksumRows cb data_path resc_hier (cb.query1 "DATA_REPL_NUM" cond)
      irods_extra.SUCCESS
    (.ok (.int res), fx)

/-- `checksum.pep_api_data_obj_create_post` -/
def pep_api_data_obj_create_post (doi : DataObjInp) (p : ChksumProps) :
    ChksumProps × Except String RetVal :=
  ({ p with data_path := some doi.objPath,
            resc_hier := some (irods_extra.value doi.condInput "resc_hier"),
            needs_checksum := some true },
   .ok (.int irods_extra.SUCCESS))

/-- `checksum.pep_api_data_obj_open_post` -/
def pep_api_data_obj_open_post (doi : DataObjInp) (p : ChksumProps) :
    ChksumProps × Except String RetVal :=
  let flags := doi.openFlags
  let nc :=
    if flags == irods_extra.OPEN_FLAG_R then false
    else
      irods_extra.value doi.condInput "openType" == irods_extra.FILE_CREATE ||
      irods_extra.replica_truncated flags
  ({ p with data_path := some doi.objPath,
            resc_hier := some (irods_extra.value doi.condInput "resc_hier"),
            needs_checksum := some nc },
   .ok (.int irods_extra.SUCCESS))

/-- `checksum.pep_api_replica_open_post` (same body as the open handler). -/
def pep_api_replica_open_post (doi : DataObjInp) (p : ChksumProps) :
    ChksumProps × Except String RetVal :=
  pep_api_data_obj_open_post doi p

/-- `checksum.pep_api_data_obj_write_post` -/
def pep_api_data_obj_write_post (p : ChksumProps) :
    ChksumProps × Except String RetVal :=
  ({ p with needs_checksum := some true }, .ok (.int irods_extra.SUCCESS))

/-- `checksum.pep_api_data_obj_close_post`: guarded no-op when
`data_path` is not in the session. -/
def pep_api_data_obj_close_post (cb : CB) (p : ChksumProps) :
    Except String RetVal × Fx :=
  match p.data_path with
  | none => (.ok (.int irods_extra.SUCCESS), Fx.nil)
  | some dp =>
    match p.needs_checksum with
    | none => (.error "KeyError: needs_checksum", Fx.nil)
    | some nc =>
      if !nc then (.ok (.int irods_extra.SUCCESS), Fx.nil)
      else
        match p.resc_hier with
        | none => (.error "KeyError: resc_hier", Fx.nil)
        | some rh => _ensure_replicas_checksum cb dp rh

/-- `checksum.pep_api_data_obj_close_finally`: unconditionally clear the
session. -/
def pep_api_data_obj_close_finally (_p : ChksumProps) :
    ChksumProps × Except String RetVal :=
  (ChksumProps.empty, .ok (.int irods_extra.SUCCESS))

/-- `checksum.pep_api_replica_close_post`: reads
`__write_props['needs_checksum']` with no guard. -/
def pep_api_replica_close_post (cb : CB) (inp : JsonInp) (p : ChksumProps) :
    Except String RetVal × Fx :=
  match p.needs_checksum with
  | none => (.error "KeyError: needs_checksum", Fx.nil)
  | some nc =>
    if nc then
      if (match inp.compute_checksum with | none => true | some b => !b) then
        match p.data_path with
        | none => (.error "KeyError: data_path", Fx.nil)
        | some dp =>
          match p.resc_hier with
          | none => (.error "KeyError: resc_hier", Fx.nil)
          | some rh => _ensure_replicas_checksum cb dp rh
      else (.ok (.int irods_extra.SUCCESS), Fx.nil)
    else (.ok (.int irods_extra.SUCCESS), Fx.nil)

/-- `checksum.pep_api_replica_close_finally` -/
def pep_api_replica_close_finally (_p : ChksumProps) :
    ChksumProps × Except String RetVal :=
  (ChksumProps.empty, .ok (.int irods_extra.SUCCESS))

end checksum

namespace replication

/-- `replication._REPL_RESC_ATTR` -/
def _REPL_RESC_ATTR : String := "cyverse::replica-resource"

/-- `replication._query_data_id`: first `DATA_ID` row, or `None`. -/
def _query_data_id (cb : CB) (data_path : String) : Option String :=
  let (coll_path, data_name) := irods_extra.split_path data_path
  (cb.query1 "DATA_ID"
    ("COLL_NAME = \x27" ++ coll_path ++ "\x27 and DATA_NAME = \x27" ++
     data_name ++ "\x27")).head?

/-- `replication._query_data_path`: the path of a data object id, or
`None`. -/
def _query_data_path (cb : CB) (data_id : String) : Option String :=
  match (cb.query2 "COLL_NAME DATA_NAME" ("DATA_ID = \x27" ++ data_id ++ "\x27")).head? with
  | some rec => some (rec.1 ++ "/" ++ rec.2)
  | none => none

/-- `replication._query_repl_resc`: the `cyverse::replica-resource` AVU
value on a resource, or `None`. -/
def _query_repl_resc (cb : CB) (resc : String) : Option String :=
  (cb.query1 "META_RESC_ATTR_VALUE"
    ("RESC_NAME = \x27" ++ resc ++ "\x27 and META_RESC_ATTR_NAME = \x27" ++
     _REPL_RESC_ATTR ++ "\x27")).head?

/-- `replication._resolve_replicate_issue`: classify a failed synchronous
replication.  Permanent conditions are logged (except the already-in-sync
one) and absorbed into `SUCCESS`; anything else is logged and the code is
returned. -/
def _resolve_replicate_issue (code : Int) (data_path : String)
    (dest_resc : Option String) : Int × Fx :=
  if code == irods_errors.CAT_NOT_ROWS_FOUND || code == irods_errors.CAT_UNKNOWN_FILE then
    (irods_extra.SUCCESS, logFx ("failed to replicate " ++ data_path ++ ", no longer exists"))
  else if code == irods_errors.SYS_NOT_ALLOWED then
    (irods_extra.SUCCESS, Fx.nil)
  else if code == irods_errors.SYS_RESC_DOES_NOT_EXIST then
    (irods_extra.SUCCESS,
     logFx ("failed to replicate " ++ data_path ++ ", destination resource " ++
       core.pyShowOpt dest_resc ++ " no longer exists"))
  else if code == irods_errors.USER_CHKSUM_MISMATCH then
    (irods_extra.SUCCESS,
     logFx ("failed to replicate " ++ data_path ++ ", source replica has bad checksum"))
  else
    (code, logFx ("Failed to replicate " ++ data_path ++ ", trying again later"))

/-- `replication._replicate_with_path`: one synchronous `msiDataObjRepl`
call to the destination resource; failures go through
`_resolve_replicate_issue`. -/
def _replicate_with_path (cb : CB) (data_path dest_resc : String) : Int × Fx :=
  let params := "backupRescName=" ++ dest_resc ++ "++++verifyChksum="
  let ret := cb.msiDataObjRepl data_path params
  let fxCall : Fx := ⟨[], [], [(data_path, params)], [], []⟩
  if ret.status then (irods_extra.SUCCESS, fxCall)
  else
    let (c, fx) := _resolve_replicate_issue ret.code data_path (some dest_resc)
    (c, fxCall.app fx)

/-- `replication._sync_replicas_with_path` -/
def _sync_replicas_with_path (cb : CB) (data_path : String) : Int × Fx :=
  let params := "all=++++updateRepl=++++verifyChksum="
  let ret := cb.msiDataObjRepl data_path params
  let fxCall : Fx := ⟨[], [], [(data_path, params)], [], []⟩
  if ret.status then (irods_extra.SUCCESS, fxCall)
  else
    let (c, fx) := _resolve_replicate_issue ret.code data_path none
    (c, fxCall.app fx)

/-- `replication.replicate` (the delayExec retry body). -/
def replicate (cb : CB) (data_id dest_resc : String) : Int × Fx :=
  match _query_data_path cb data_id with
  | some data_path => _replicate_with_path cb data_path dest_resc
  | none => (irods_extra.SUCCESS, Fx.nil)

/-- `replication.sync_replicas` (the delayExec retry body). -/
def sync_replicas (cb : CB) (data_id : String) : Int × Fx :=
  match _query_data_path cb data_id with
  | some data_path => _sync_replicas_with_path cb data_path
  | none => (irods_extra.SUCCESS, Fx.nil)

/-- `replication._sched_repl_task`: enqueue one delayExec task with the
next throttle delay and an 8-hour repeat-until-success cadence. -/
def _sched_repl_task (thr : Int) (task : String) : Fx × Int :=
  let (d, thr2) := throttle.next_delay thr
  (⟨[], [], [], [],
    [("<INST_NAME>irods_rule_engine_plugin-python-instance</INST_NAME><PLUSET>" ++
      toString d ++ "s</PLUSET><EF>8h REPEAT UNTIL SUCCESS</EF>", task)]⟩,
   thr2)

/-- `replication._sched_replication` -/
def _sched_replication (thr : Int) (data_id : Option String) (dest_resc : String) :
    Fx × Int :=
  _sched_repl_task thr
    ("callback.replicate(\x27" ++ core.pyShowOpt data_id ++ "\x27, \x27" ++
     dest_resc ++ "\x27)")

/-- `replication._sched_sync_replicas` -/
def _sched_sync_replicas (thr : Int) (data_id : Option String) : Fx × Int :=
  _sched_repl_task thr ("callback.sync_replicas(\x27" ++ core.pyShowOpt data_id ++ "\x27)")

/-- `replication._try_replicate`: one synchronous attempt; schedule the
asynchronous retry only when the resolved code signals failure. -/
def _try_replicate (cb : CB) (thr : Int) (data_path dest_resc : String) : Fx × Int :=
  let (c, fx1) := _replicate_with_path cb data_path dest_resc
  if c < irods_extra.SUCCESS then
    let (fx2, thr2) := _sched_replication thr (_query_data_id cb data_path) dest_resc
    (fx1.app fx2, thr2)
  else (fx1, thr)

/-- `replication._try_sync_replicas` -/
def _try_sync_replicas (cb : CB) (thr : Int) (data_path : String) : Fx × Int :=
  let (c, fx1) := _sync_replicas_with_path cb data_path
  if c < irods_extra.SUCCESS then
    let (fx2, thr2) := _sched_sync_replicas thr (_query_data_id cb data_path)
    (fx1.app fx2, thr2)
  else (fx1, thr)

/-- `replication.pep_api_data_obj_create_post` -/
def pep_api_data_obj_create_post (doi : DataObjInp) (p : ReplProps) :
    ReplProps × Except String RetVal :=
  ({ p with data_path := some doi.objPath,
            resc_hier := some (irods_extra.value doi.condInput "resc_hier"),
            created := some true,
            modified := some false },
   .ok (.int irods_extra.SUCCESS))

/-- `replication.pep_api_data_obj_open_post` -/
def pep_api_data_obj_open_post (doi : DataObjInp) (p : ReplProps) :
    ReplProps × Except String RetVal :=
  let flags := doi.openFlags
  let cm : Bool × Bool :=
    if flags == irods_extra.OPEN_FLAG_R then (false, false)
    else (irods_extra.value doi.condInput "openType" == irods_extra.FILE_CREATE,
          irods_extra.replica_truncated flags)
  ({ p with data_path := some doi.objPath,
            resc_hier := some (irods_extra.value doi.condInput "resc_hier"),
            created := some cm.1,
            modified := some cm.2 },
   .ok (.int irods_extra.SUCCESS))

/-- `replication.pep_api_replica_open_post` (same body as the open
handler). -/
def pep_api_replica_open_post (doi : DataObjInp) (p : ReplProps) :
    ReplProps × Except String RetVal :=
  pep_api_data_obj_open_post doi p

/-- `replication.pep_api_data_obj_write_post`: sets the modified flag but
has no return statement, so the Python function returns `None`. -/
def pep_api_data_obj_write_post (p : ReplProps) :
    ReplProps × Except String RetVal :=
  ({ p with modified := some true }, .ok .noneVal)

/-- `replication.pep_api_data_obj_close_post`: reads
`__write_props['created']` with no guard; on a created object with a
bound peer resource it schedules the asynchronous replication task
directly (no synchronous attempt). -/
def pep_api_data_obj_close_post (cb : CB) (p : ReplProps) (thr : Int) :
    Except String RetVal × Fx × Int :=
  match p.created with
  | none => (.error "KeyError: created", Fx.nil, thr)
  | some created =>
    if created then
      match p.resc_hier with
      | none => (.error "KeyError: resc_hier", Fx.nil, thr)
      | some rh =>
        match _query_repl_resc cb (irods_extra.root_resc rh) with
        | some repl_resc =>
          match p.data_path with
          | none => (.error "KeyError: data_path", Fx.nil, thr)
          | some dp =>
            let (fx, thr2) := _sched_replication thr (_query_data_id cb dp) repl_resc
            (.ok (.int irods_extra.SUCCESS), fx, thr2)
        | none => (.ok (.int irods_extra.SUCCESS), Fx.nil, thr)
    else
      match p.modified with
      | none => (.error "KeyError: modified", Fx.nil, thr)
      | some m =>
        if m then
          match p.data_path with
          | none => (.error "KeyError: data_path", Fx.nil, thr)
          | some dp =>
            let (fx, thr2) := _sched_sync_replicas thr (_query_data_id cb dp)
            (.ok (.int irods_extra.SUCCESS), fx, thr2)
        else (.ok (.int irods_extra.SUCCESS), Fx.nil, thr)

/-- `replication.pep_api_data_obj_close_finally` -/
def pep_api_data_obj_close_finally (_p : ReplProps) :
    ReplProps × Except String RetVal :=
  (ReplProps.empty, .ok (.int irods_extra.SUCCESS))

/-- `replication.pep_api_replica_close_post` (same unguarded body as the
data-object close handler). -/
def pep_api_replica_close_post (cb : CB) (p : ReplProps) (thr : Int) :
    Except String RetVal × Fx × Int :=
  pep_api_data_obj_close_post cb p thr

/-- `replication.pep_api_replica_close_finally` -/
def pep_api_replica_close_finally (_p : ReplProps) :
    ReplProps × Except String RetVal :=
  (ReplProps.empty, .ok (.int irods_extra.SUCCESS))

end replication

namespace core

/-- `core.pep_api_data_obj_write_post`: compose the checksum and
replication write handlers with `fail_resp=None`. -/
def pep_api_data_obj_write_post (cp : ChksumProps) (rp : ReplProps) :
    (ChksumProps × ReplProps) × (Except String Int × Nat) :=
  let (cp2, r1) := checksum.pep_api_data_obj_write_post cp
  let (rp2, r2) := replication.pep_api_data_obj_write_post rp
  ((cp2, rp2), _compose_rules [r1, r2] irods_errors.RULE_ENGINE_CONTINUE none false)

end core

/-- Python `startswith` on char lists. -/
def isPfx : List Char → List Char → Bool
  | [], _ => true
  | _ :: _, [] => false
  | a :: as, b :: bs => a == b && isPfx as bs

/-- Character order used by the catalog's lexicographic sort. -/
def clt (a b : Char) : Bool := a.toNat < b.toNat

/-- Lexicographic less-or-equal on char lists: the order in which the
catalog sorts `META_RESC_ATTR_VALUE` strings. -/
def lexLe : List Char → List Char → Bool
  | [], _ => true
  | _ :: _, [] => false
  | a :: as, b :: bs =>
    if clt a b then true
    else if clt b a then false
    else lexLe as bs

/-- Python `s.startswith(p)` on strings. -/
def strPfx (p s : String) : Bool := isPfx p.data s.data

/-- Python `s.lower()`. -/
def strToLower (s : String) : String := ⟨s.data.map Char.toLower⟩

/-- Lexicographic less-or-equal on strings. -/
def strLexLe (s t : String) : Bool := lexLe s.data t.data

namespace residency

def _HOST_COLL_ATTR : String := "ipc::hosted-collection"

def _REPL_RESC_ATTR : String := "ipc::replica-resource"

def _RESIDENCY_FORCE : String := "forced"

def _RESIDENCY_PREF : String := "preferred"

/-- The hosted-collection placement rules, as returned by the catalog for
`residency._query_create_scheme`: rows of (collection path value, units,
resource name), sorted by the catalog in descending lexicographic order
of the value column (`ORDER_DESC(META_RESC_ATTR_VALUE)`). -/
def hosted_rules (cb : CB) : List (String × String × String) :=
  cb.query3 "ORDER_DESC(META_RESC_ATTR_VALUE) META_RESC_ATTR_UNITS RESC_NAME"
    ("META_RESC_ATTR_NAME = \x27" ++ _HOST_COLL_ATTR ++ "\x27")

/-- `residency._query_create_scheme`: first rule (in the descending
order) whose collection path is a prefix of the object path; the default
resource with the `preferred` option when none matches. -/
def _query_create_scheme (cb : CB) (data_path : String) : String × String :=
  match (hosted_rules cb).find? (fun rec => strPfx rec.1 data_path) with
  | some rec => (rec.2.2, strToLower rec.2.1)
  | none => (cb.default_resc, _RESIDENCY_PREF)

/-- `residency._query_repl_scheme`: the peer binding of a resource as a
(value, units) pair, or `None`. -/
def _query_repl_scheme (cb : CB) (resc : String) : Option (String × String) :=
  (cb.query2 "META_RESC_ATTR_VALUE META_RESC_ATTR_UNITS"
    ("RESC_NAME = \x27" ++ resc ++ "\x27 and META_RESC_ATTR_NAME = \x27" ++
     _REPL_RESC_ATTR ++ "\x27")).head?

/-- `residency._set_default_scheme` -/
def _set_default_scheme (cb : CB) (scheme : String × String) : Int × Fx :=
  let opt := if scheme.2 == _RESIDENCY_FORCE then "forced" else "preferred"
  let ret := cb.msiSetDefaultResc scheme.1 opt
  (ret.code, ⟨[], [], [], [(scheme.1, opt)], []⟩)

/-- The `DATA_RESC_HIER`/`DATA_REPL_STATUS` rows of
`acSetRescSchemeForRepl`'s replica query. -/
def _repl_status_rows (cb : CB) (data_path : String) : List (String × String) :=
  let (coll_path, data_name) := irods_extra.split_path data_path
  cb.query2 "DATA_RESC_HIER DATA_REPL_STATUS"
    ("COLL_NAME = \x27" ++ coll_path ++ "\x27and DATA_NAME = \x27" ++ data_name ++ "\x27")

/-- Python list indexing: `IndexError` when out of range. -/
def pyIdx (l : List (String × String)) (i : Nat) : Except String (String × String) :=
  match l.get? i with
  | some a => .ok a
  | none => .error "IndexError: list index out of range"

/-- The `cur_resc` selection of `acSetRescSchemeForRepl` (source lines
124-130): one replica selects it; otherwise index the first two entries,
preferring the one whose peer's `DATA_REPL_STATUS` is not "1"; indexing
an empty row list is an `IndexError`. -/
def curRescChoice (cur_rescs : List (String × String)) :
    Except String (Option String) :=
  if cur_rescs.length == 1 then
    match pyIdx cur_rescs 0 with
    | .error e => .error e
    | .ok r0 => .ok (some r0.1)
  else
    match pyIdx cur_rescs 0 with
    | .error e => .error e
    | .ok r0 =>
      if r0.2 != "1" then
        match pyIdx cur_rescs 1 with
        | .error e => .error e
        | .ok r1 => .ok (some r1.1)
      else
        match pyIdx cur_rescs 1 with
        | .error e => .error e
        | .ok r1 => if r1.2 != "1" then .ok (some r0.1) else .ok none

/-- `residency.acSetRescSchemeForRepl`: pick the current good replica's
root resource, resolve its peer binding, fall back to the create scheme,
and set the default resource accordingly.  An object with no replicas
makes the selection raise. -/
def acSetRescSchemeForRepl (cb : CB) (data_path : String) :
    Except String Int × Fx :=
  let cur_rescs := (_repl_status_rows cb data_path).map
    (fun rec => (irods_extra.root_resc rec.1, rec.2))
  match curRescChoice cur_rescs with
  | .error e => (.error e, Fx.nil)
  | .ok cur_resc =>
    let repl_scheme : Option (String × String) :=
      match cur_resc with
      | some resc => if resc != "" then _query_repl_scheme cb resc else none
      | none => none
    let scheme :=
      match repl_scheme with
      | some s => s
      | none => _query_create_scheme cb data_path
    let (rc, fx1) := _set_default_scheme cb scheme
    if rc < irods_extra.SUCCESS then
      (.ok rc, fx1.app (logFx ("Failed tpo set replica resource scheme to " ++
        scheme.1 ++ " " ++ scheme.2 ++ " (" ++ toString rc ++ ")")))
    else (.ok rc, fx1)

end residency

/-!
Concrete callback environments used to evaluate the embedded rules on
explicit inputs.
-/

/-- A trivial environment: every microservice succeeds and every catalog
query is empty. -/
def cb0 : CB :=
  { msiDataObjChksum := fun _ _ => ⟨true, 0⟩
    msiDataObjRepl := fun _ _ => ⟨true, 0⟩
    msiSetDefaultResc := fun _ _ => ⟨true, 0⟩
    query1 := fun _ _ => []
    query2 := fun _ _ => []
    query3 := fun _ _ => []
    default_resc := "demoResc" }

/-- A concrete catalog for exercising `create_scheme_most_specific`: rules
for /zone/home/alice and /zone/home, in descending order. -/
def cbW6 : CB :=
  { msiDataObjChksum := fun _ _ => ⟨true, 0⟩
    msiDataObjRepl := fun _ _ => ⟨true, 0⟩
    msiSetDefaultResc := fun _ _ => ⟨true, 0⟩
    query1 := fun _ _ => []
    query2 := fun _ _ => []
    query3 := fun _ _ =>
      [("/zone/home/alice", "forced", "rescAlice"), ("/zone/home", "", "rescHome")]
    default_resc := "defResc" }

/-- An environment where every checksum call fails: the all-replicas call
with code -3, the replica-0 call with code -5, any other with code -7;
the object has replicas 0 and 1. -/
def cbChkFail : CB :=
  { msiDataObjChksum := fun _ sel =>
      if sel == "ChksumAll=" then ⟨false, -3⟩
      else if sel == "replNum=0" then ⟨false, -5⟩
      else ⟨false, -7⟩
    msiDataObjRepl := fun _ _ => ⟨true, 0⟩
    msiSetDefaultResc := fun _ _ => ⟨true, 0⟩
    query1 := fun _ _ => ["0", "1"]
    query2 := fun _ _ => []
    query3 := fun _ _ => []
    default_resc := "demoResc" }

/-- An environment where every checksum call succeeds and the object has
replicas 0 and 1. -/
def cbChkOk : CB :=
  { msiDataObjChksum := fun _ _ => ⟨true, 0⟩
    msiDataObjRepl := fun _ _ => ⟨true, 0⟩
    msiSetDefaultResc := fun _ _ => ⟨true, 0⟩
    query1 := fun _ _ => ["0", "1"]
    query2 := fun _ _ => []
    query3 := fun _ _ => []
    default_resc := "demoResc" }

/-- An environment with a peer-resource binding (rescB) and a known data
object id, where a synchronous replication call would succeed. -/
def cbPeer : CB :=
  { msiDataObjChksum := fun _ _ => ⟨true, 0⟩
    msiDataObjRepl := fun _ _ => ⟨true, 0⟩
    msiSetDefaultResc := fun _ _ => ⟨true, 0⟩
    query1 := fun cols _ =>
      if cols == "META_RESC_ATTR_VALUE" then ["rescB"] else ["10011"]
    query2 := fun _ _ => []
    query3 := fun _ _ => []
    default_resc := "demoResc" }

/-- An environment whose replication call fails with the
destination-resource-does-not-exist code. -/
def cbReplGone : CB :=
  { msiDataObjChksum := fun _ _ => ⟨true, 0⟩
    msiDataObjRepl := fun _ _ => ⟨false, irods_errors.SYS_RESC_DOES_NOT_EXIST⟩
    msiSetDefaultResc := fun _ _ => ⟨true, 0⟩
    query1 := fun cols _ =>
      if cols == "META_RESC_ATTR_VALUE" then ["rescB"] else ["10011"]
    query2 := fun _ _ => []
    query3 := fun _ _ => []
    default_resc := "demoResc" }

/-- An environment whose replication call fails with a transient code. -/
def cbReplTransient : CB :=
  { msiDataObjChksum := fun _ _ => ⟨true, 0⟩
    msiDataObjRepl := fun _ _ => ⟨false, -99⟩
    msiSetDefaultResc := fun _ _ => ⟨true, 0⟩
    query1 := fun cols _ =>
      if cols == "META_RESC_ATTR_VALUE" then ["rescB"] else ["10011"]
    query2 := fun _ _ => []
    query3 := fun _ _ => []
    default_resc := "demoResc" }

/-- An environment where the object has one good replica on rescA and a
peer binding rescA -> rescB. -/
def cbOneRepl : CB :=
  { msiDataObjChksum := fun _ _ => ⟨true, 0⟩
    msiDataObjRepl := fun _ _ => ⟨true, 0⟩
    msiSetDefaultResc := fun _ _ => ⟨true, 4⟩
    query1 := fun _ _ => []
    query2 := fun cols _ =>
      if cols == "DATA_RESC_HIER DATA_REPL_STATUS" then [("rescA;ufs1", "1")]
      else [("rescB", "forced")]
    query3 := fun _ _ => []
    default_resc := "demoResc" }

/-- An environment where the object has no replicas at all. -/
def cbNoRepl : CB :=
  { msiDataObjChksum := fun _ _ => ⟨true, 0⟩
    msiDataObjRepl := fun _ _ => ⟨true, 0⟩
    msiSetDefaultResc := fun _ _ => ⟨true, 0⟩
    query1 := fun _ _ => []
    query2 := fun _ _ => []
    query3 := fun _ _ => []
    default_resc := "demoResc" }

lemma isPfx_length {p q : List Char} (h : isPfx p q = true) : p.length ≤ q.length := by
  induction p generalizing q with
  | nil => simp
  | cons a as ih =>
    cases q with
    | nil => simp [isPfx] at h
    | cons b bs =>
      simp only [isPfx, Bool.and_eq_true] at h
      simpa using ih h.2

lemma isPfx_comparable {p q s : List Char} (hp : isPfx p s = true)
    (hq : isPfx q s = true) : isPfx p q = true ∨ isPfx q p = true := by
  induction s generalizing p q with
  | nil =>
    cases p with
    | nil => left; rfl
    | cons a as => simp [isPfx] at hp
  | cons c cs ih =>
    cases p with
    | nil => left; rfl
    | cons a as =>
      cases q with
      | nil => right; rfl
      | cons b bs =>
        simp only [isPfx, Bool.and_eq_true, beq_iff_eq] at hp hq
        rcases ih hp.2 hq.2 with h | h
        · left; simp [isPfx, hp.1, hq.1, h]
        · right; simp [isPfx, hp.1, hq.1, h]

lemma lexLe_not_of_proper {a b : List Char} (h : isPfx b a = true)
    (hl : b.length < a.length) : lexLe a b = false := by
  induction b generalizing a with
  | nil =>
    cases a with
    | nil => simp at hl
    | cons c cs => rfl
  | cons x xs ih =>
    cases a with
    | nil => simp [isPfx] at h
    | cons y ys =>
      simp only [isPfx, Bool.and_eq_true, beq_iff_eq] at h
      rcases h with ⟨hx, hpfx⟩
      subst hx
      simp only [List.length_cons, Nat.succ_lt_succ_iff] at hl
      simpa [lexLe, clt] using ih hpfx hl

lemma length_le_of_lexLe_pfx {a b s : List Char} (ha : isPfx a s = true)
    (hb : isPfx b s = true) (hle : lexLe a b = true) : a.length ≤ b.length := by
  rcases isPfx_comparable ha hb with h | h
  · exact isPfx_length h
  · by_contra hlt
    push_neg at hlt
    have hf := lexLe_not_of_proper h hlt
    rw [hf] at hle
    exact Bool.false_ne_true hle

lemma strLength_le_of_lexLe_pfx {a b s : String} (ha : strPfx a s = true)
    (hb : strPfx b s = true) (hle : strLexLe a b = true) : a.length ≤ b.length :=
  length_le_of_lexLe_pfx (s := s.data) ha hb hle

/-- In a list of placement rules sorted descending by collection path, the
first rule whose path is a prefix of the object path has the longest such
path. -/
lemma find_most_specific (dp : String) (rules : List (String × String × String))
    (hsort : rules.Pairwise (fun a b => strLexLe b.1 a.1 = true))
    (hex : ∃ r ∈ rules, strPfx r.1 dp = true) :
    ∃ m, rules.find? (fun rec => strPfx rec.1 dp) = some m ∧ m ∈ rules ∧
      strPfx m.1 dp = true ∧
      ∀ r2 ∈ rules, strPfx r2.1 dp = true → r2.1.length ≤ m.1.length := by
  induction rules with
  | nil => simp at hex
  | cons r rest ih =>
    rcases List.pairwise_cons.mp hsort with ⟨hhead, htail⟩
    by_cases hm : strPfx r.1 dp = true
    · refine ⟨r, ?_, List.mem_cons_self r rest, hm, ?_⟩
      · simp [List.find?, hm]
      · intro r2 hr2 hp2
        rcases List.mem_cons.mp hr2 with rfl | hr2
        · exact le_refl _
        · exact strLength_le_of_lexLe_pfx hp2 hm (hhead r2 hr2)
    · have hex2 : ∃ r2 ∈ rest, strPfx r2.1 dp = true := by
        rcases hex with ⟨r0, hr0, hp0⟩
        rcases List.mem_cons.mp hr0 with rfl | hr0
        · exact absurd hp0 hm
        · exact ⟨r0, hr0, hp0⟩
      rcases ih htail hex2 with ⟨m, hfind, hmem, hpm, hbound⟩
      refine ⟨m, ?_, List.mem_cons_of_mem r hmem, hpm, ?_⟩
      · simp [List.find?, hm, hfind]
      · intro r2 hr2 hp2
        rcases List.mem_cons.mp hr2 with rfl | hr2
        · exact absurd hp2 hm
        · exact hbound r2 hr2 hp2

/-- C6: `_query_create_scheme` returns the resource of the most-specific
(longest-prefix) hosted-collection rule whose collection path is a prefix
of the object path, assuming the catalog returns the rules sorted in
descending lexicographic order of their paths; when no rule's path is a
prefix, it returns the configured default resource with the overridable
(`preferred`, i.e. not `forced`) option. -/
theorem create_scheme_most_specific (cb : CB) (dp : String)
    (hsort : (residency.hosted_rules cb).Pairwise (fun a b => strLexLe b.1 a.1 = true)) :
    ((∀ r ∈ residency.hosted_rules cb, strPfx r.1 dp = false) →
      residency._query_create_scheme cb dp = (cb.default_resc, residency._RESIDENCY_PREF) ∧
      residency._RESIDENCY_PREF ≠ residency._RESIDENCY_FORCE) ∧
    ((∃ r ∈ residency.hosted_rules cb, strPfx r.1 dp = true) →
      ∃ m ∈ residency.hosted_rules cb, strPfx m.1 dp = true ∧
        residency._query_create_scheme cb dp = (m.2.2, strToLower m.2.1) ∧
        ∀ r2 ∈ residency.hosted_rules cb, strPfx r2.1 dp = true →
          r2.1.length ≤ m.1.length) := by
  constructor
  · intro h
    have hnone : (residency.hosted_rules cb).find? (fun rec => strPfx rec.1 dp) = none :=
      List.find?_eq_none.mpr (fun x hx => by simp [h x hx])
    constructor
    · simp [residency._query_create_scheme, hnone]
    · decide
  · intro hex
    rcases find_most_specific dp (residency.hosted_rules cb) hsort hex with
      ⟨m, hfind, hmem, hpm, hbound⟩
    exact ⟨m, hmem, hpm, by simp [residency._query_create_scheme, hfind], hbound⟩

theorem create_scheme_most_specific_witness :
    (residency.hosted_rules cbW6).Pairwise (fun a b => strLexLe b.1 a.1 = true) ∧
    (∃ m ∈ residency.hosted_rules cbW6, strPfx m.1 "/zone/home/alice/x" = true ∧
      residency._query_create_scheme cbW6 "/zone/home/alice/x" = (m.2.2, strToLower m.2.1) ∧
      ∀ r2 ∈ residency.hosted_rules cbW6, strPfx r2.1 "/zone/home/alice/x" = true →
        r2.1.length ≤ m.1.length) ∧
    residency._query_create_scheme cbW6 "/zone/home/alice/x" = ("rescAlice", "forced") :=
  ⟨by decide,
   (create_scheme_most_specific cbW6 "/zone/home/alice/x" (by decide)).2
     ⟨("/zone/home/alice", "forced", "rescAlice"), by decide, by decide⟩,
   by decide⟩

/-- C1 (counterexample): with no write session active, the replication
module's data-object close handler does not no-op with success — it
raises a KeyError reading `__write_props['created']`. -/
theorem close_without_session_raises_cx :
    replication.pep_api_data_obj_close_post cb0 ReplProps.empty 0 =
      (.error "KeyError: created", Fx.nil, 0) := rfl

/-- C1 (amended): with no write session active, only the checksum
module's data-object close handler is a guarded no-op returning success;
the checksum module's replica-close handler and both replication close
handlers read the session unguarded and raise a KeyError. -/
theorem close_handlers_on_inactive_session (cb : CB) (thr : Int) (inp : JsonInp) :
    checksum.pep_api_data_obj_close_post cb ChksumProps.empty =
      (.ok (.int irods_extra.SUCCESS), Fx.nil) ∧
    checksum.pep_api_replica_close_post cb inp ChksumProps.empty =
      (.error "KeyError: needs_checksum", Fx.nil) ∧
    replication.pep_api_data_obj_close_post cb ReplProps.empty thr =
      (.error "KeyError: created", Fx.nil, thr) ∧
    replication.pep_api_replica_close_post cb ReplProps.empty thr =
      (.error "KeyError: created", Fx.nil, thr) :=
  ⟨rfl, rfl, rfl, rfl⟩

/-- C2 (code evaluation at the failing input): with modules [A, B] where
A fails with -1 and the configured failure code is 0 (`_RE_DONE`, the
default of `_compose_rules`) and `continueOnFailure=false`, B is never
invoked, but the composed response is A's own code -1 rather than the
configured failure code 0: `fail_resp if fail_resp else res` treats the
configured 0 as unset. -/
theorem compose_stop_on_fail_drops_configured_zero :
    core._compose_rules [.ok (.int (-1)), .ok (.int 7)]
      irods_errors.RULE_ENGINE_CONTINUE (some core._RE_DONE) false =
      (.ok (-1), 1) ∧ (((-1 : Int) == core._RE_DONE) = false) :=
  ⟨rfl, rfl⟩

/-- C3 (counterexample): with `continueOnFailure=true`, modules [A, B]
where A fails with -1 and B succeeds, and a configured failure code of 0,
B is still invoked but the composed response is -1, not the configured
failure code. -/
theorem compose_cont_on_fail_cx :
    core._compose_rules [.ok (.int (-1)), .ok (.int 0)]
      irods_errors.RULE_ENGINE_CONTINUE (some 0) true = (.ok (-1), 2) ∧
    (((-1 : Int) == 0) = false) :=
  ⟨rfl, rfl⟩

/-- C3 (amended): with `continueOnFailure=true`, modules [A, B] where A
fails and B succeeds, B is still invoked and the composed response
reflects A's failure: the configured failure code when it is nonzero,
else A's own code (B's success never overwrites it). -/
theorem compose_cont_on_fail_reflects_first_failure (a b sr : Int)
    (fr : Option Int) (ha : a < irods_extra.SUCCESS)
    (hb : irods_extra.SUCCESS ≤ b) :
    core._compose_rules [.ok (.int a), .ok (.int b)] sr fr true =
      (.ok (core.failRespValue fr a), 2) := by
  have hb2 : ¬ (b < irods_extra.SUCCESS) := not_lt.mpr hb
  simp [core._compose_rules, core.composeGo, ha, hb2]

theorem compose_cont_on_fail_reflects_first_failure_witness :
    ((-1 : Int) < irods_extra.SUCCESS) ∧ (irods_extra.SUCCESS ≤ (0 : Int)) ∧
    core._compose_rules [.ok (.int (-1)), .ok (.int 0)]
      irods_errors.RULE_ENGINE_CONTINUE none true = (.ok (-1), 2) :=
  ⟨by decide, by decide,
   compose_cont_on_fail_reflects_first_failure (-1) 0
     irods_errors.RULE_ENGINE_CONTINUE none (by decide) (by decide)⟩

/-- C8: every close-cleanup (finally) handler, in both modules,
unconditionally empties the session record and returns success, whatever
the session held. -/
theorem close_finally_clears_session (cp : ChksumProps) (rp : ReplProps) :
    checksum.pep_api_data_obj_close_finally cp =
      (ChksumProps.empty, .ok (.int irods_extra.SUCCESS)) ∧
    checksum.pep_api_replica_close_finally cp =
      (ChksumProps.empty, .ok (.int irods_extra.SUCCESS)) ∧
    replication.pep_api_data_obj_close_finally rp =
      (ReplProps.empty, .ok (.int irods_extra.SUCCESS)) ∧
    replication.pep_api_replica_close_finally rp =
      (ReplProps.empty, .ok (.int irods_extra.SUCCESS)) :=
  ⟨rfl, rfl, rfl, rfl⟩

/-- C9 (code evaluation at the failing input): the replication module's
data-object write handler has no return statement, so it returns None
rather than an integer; the composed write hook's comparison of that
value against the success sentinel is then a TypeError escaping to the
dispatcher, after both module handlers were invoked. -/
theorem write_hook_type_error (cp : ChksumProps) (rp : ReplProps) :
    (replication.pep_api_data_obj_write_post rp).2 = .ok .noneVal ∧
    (core.pep_api_data_obj_write_post cp rp).2 =
      (.error "TypeError: not supported between NoneType and int", 2) :=
  ⟨rfl, rfl⟩

/-- C5 (code evaluation at the failing input): with an empty resource
hierarchy, `_ensure_replicas_checksum` issues exactly one all-replicas
checksum request; when that request fails, the malformed log format
string raises a ValueError — nothing is logged and no failure code is
returned (on success the branch returns the raw msi dictionary, not an
integer).  With a resource hierarchy, one request per matching replica is
issued, each failure is logged, iteration continues, and the first
failure code (-5 of replica 0, not -7 of replica 1) is returned; with no
failures it returns SUCCESS. -/
theorem ensure_checksum_empty_hier_bug :
    checksum._ensure_replicas_checksum cbChkFail "/zone/home/alice/f" "" =
      (.error "ValueError: Single \x7d encountered in format string",
       ⟨[], [("/zone/home/alice/f", "ChksumAll=")], [], [], []⟩) ∧
    (checksum._ensure_replicas_checksum cbChkFail "/zone/home/alice/f" "rescA;ufs1").1 =
      .ok (.int (-5)) ∧
    (checksum._ensure_replicas_checksum cbChkFail "/zone/home/alice/f" "rescA;ufs1").2.chksumCalls =
      [("/zone/home/alice/f", "replNum=0"), ("/zone/home/alice/f", "replNum=1")] ∧
    (checksum._ensure_replicas_checksum cbChkFail "/zone/home/alice/f" "rescA;ufs1").2.log.length = 2 ∧
    (checksum._ensure_replicas_checksum cbChkOk "/zone/home/alice/f" "rescA;ufs1") =
      (.ok (.int irods_extra.SUCCESS),
       ⟨[], [("/zone/home/alice/f", "replNum=0"), ("/zone/home/alice/f", "replNum=1")],
        [], [], []⟩) :=
  ⟨rfl, rfl, rfl, rfl, rfl⟩

lemma resolve_issue_fx (code : Int) (dp : String) (dr : Option String) :
    (replication._resolve_replicate_issue code dp dr).2.replCalls = [] ∧
    (replication._resolve_replicate_issue code dp dr).2.tasks = [] := by
  unfold replication._resolve_replicate_issue
  split_ifs <;> simp [logFx, Fx.nil]

lemma replicate_with_path_fx (cb : CB) (dp rr : String) :
    (replication._replicate_with_path cb dp rr).2.replCalls =
      [(dp, "backupRescName=" ++ rr ++ "++++verifyChksum=")] ∧
    (replication._replicate_with_path cb dp rr).2.tasks = [] := by
  unfold replication._replicate_with_path
  cases h : (cb.msiDataObjRepl dp ("backupRescName=" ++ rr ++ "++++verifyChksum=")).status <;>
    simp [h, Fx.app, (resolve_issue_fx _ _ _).1, (resolve_issue_fx _ _ _).2]

/-- C4 (counterexample): on closing a created object whose primary
resource has the peer binding rescB, the close handler performs no
synchronous replication call — even though the environment's replication
call would succeed — and still schedules one asynchronous retry task. -/
theorem create_close_no_sync_attempt_cx :
    (replication.pep_api_data_obj_close_post cbPeer
      ⟨some "/zone/home/alice/f", some "rescA;ufs1", some true, some false⟩
      (-1)).2.1.replCalls = [] ∧
    (replication.pep_api_data_obj_close_post cbPeer
      ⟨some "/zone/home/alice/f", some "rescA;ufs1", some true, some false⟩
      (-1)).2.1.tasks.length = 1 ∧
    (cbPeer.msiDataObjRepl "/zone/home/alice/f"
      "backupRescName=rescB++++verifyChksum=").status = true :=
  ⟨rfl, rfl, rfl⟩

/-- C4 (amended): on closing a created object with a resolved peer
resource, the close handler makes no synchronous replication attempt and
unconditionally schedules exactly one asynchronous retry task; the
attempt-synchronously-then-schedule-on-failure behavior belongs to
`_try_replicate` (the bulk-upload path), which makes exactly one
synchronous call and schedules exactly one task iff the resolved code
signals failure. -/
theorem create_close_replication (cb : CB) (dp rh : String) (thr : Int)
    (rr : String)
    (hrr : replication._query_repl_resc cb (irods_extra.root_resc rh) = some rr) :
    ((replication.pep_api_data_obj_close_post cb
        ⟨some dp, some rh, some true, some false⟩ thr).1 =
          .ok (.int irods_extra.SUCCESS) ∧
      (replication.pep_api_data_obj_close_post cb
        ⟨some dp, some rh, some true, some false⟩ thr).2.1.replCalls = [] ∧
      (replication.pep_api_data_obj_close_post cb
        ⟨some dp, some rh, some true, some false⟩ thr).2.1.tasks.length = 1) ∧
    (∀ (dp2 rr2 : String) (thr2 : Int),
      (replication._try_replicate cb thr2 dp2 rr2).1.replCalls.length = 1 ∧
      (replication._try_replicate cb thr2 dp2 rr2).1.tasks.length =
        (if (replication._replicate_with_path cb dp2 rr2).1 < irods_extra.SUCCESS
         then 1 else 0)) := by
  constructor
  · refine ⟨?_, ?_, ?_⟩ <;>
      simp [replication.pep_api_data_obj_close_post, hrr,
        replication._sched_replication, replication._sched_repl_task,
        throttle.next_delay]
  · intro dp2 rr2 thr2
    by_cases hc :
      (replication._replicate_with_path cb dp2 rr2).1 < irods_extra.SUCCESS <;>
      simp [replication._try_replicate, hc, Fx.app,
        replication._sched_replication, replication._sched_repl_task,
        throttle.next_delay, (replicate_with_path_fx cb dp2 rr2).1,
        (replicate_with_path_fx cb dp2 rr2).2]

theorem create_close_replication_witness :
    replication._query_repl_resc cbPeer (irods_extra.root_resc "rescA;ufs1") =
      some "rescB" ∧
    (replication.pep_api_data_obj_close_post cbPeer
      ⟨some "/zone/home/alice/f", some "rescA;ufs1", some true, some false⟩
      (-1)).2.1.tasks.length = 1 ∧
    (replication._try_replicate cbReplTransient 0 "/zone/home/alice/f"
      "rescB").1.replCalls.length = 1 :=
  ⟨rfl,
   (create_close_replication cbPeer "/zone/home/alice/f" "rescA;ufs1" (-1)
      "rescB" rfl).1.2.2,
   ((create_close_replication cbReplTransient "/zone/home/alice/f" "rescA;ufs1"
      0 "rescB" rfl).2 "/zone/home/alice/f" "rescB" 0).1⟩

/-- C7: classification of a failed synchronous replication attempt.  The
permanent codes (object gone / unknown file, not-allowed i.e. already in
sync, destination resource gone, source checksum mismatch) are absorbed
into SUCCESS and `_try_replicate` schedules no task — with one log line
for each of them except the already-in-sync code; any other failure code
is propagated, one log line is written and exactly one retry task is
scheduled. -/
theorem sync_replication_failure_taxonomy (cb : CB) (dp rr : String)
    (thr : Int)
    (hst : (cb.msiDataObjRepl dp
      ("backupRescName=" ++ rr ++ "++++verifyChksum=")).status = false) :
    ((cb.msiDataObjRepl dp
        ("backupRescName=" ++ rr ++ "++++verifyChksum=")).code =
          irods_errors.CAT_NOT_ROWS_FOUND ∨
      (cb.msiDataObjRepl dp
        ("backupRescName=" ++ rr ++ "++++verifyChksum=")).code =
          irods_errors.CAT_UNKNOWN_FILE ∨
      (cb.msiDataObjRepl dp
        ("backupRescName=" ++ rr ++ "++++verifyChksum=")).code =
          irods_errors.SYS_NOT_ALLOWED ∨
      (cb.msiDataObjRepl dp
        ("backupRescName=" ++ rr ++ "++++verifyChksum=")).code =
          irods_errors.SYS_RESC_DOES_NOT_EXIST ∨
      (cb.msiDataObjRepl dp
        ("backupRescName=" ++ rr ++ "++++verifyChksum=")).code =
          irods_errors.USER_CHKSUM_MISMATCH →
      (replication._replicate_with_path cb dp rr).1 = irods_extra.SUCCESS ∧
      (replication._try_replicate cb thr dp rr).1.tasks = [] ∧
      (replication._try_replicate cb thr dp rr).1.log.length =
        (if (cb.msiDataObjRepl dp
            ("backupRescName=" ++ rr ++ "++++verifyChksum=")).code =
            irods_errors.SYS_NOT_ALLOWED then 0 else 1)) ∧
    ((cb.msiDataObjRepl dp
        ("backupRescName=" ++ rr ++ "++++verifyChksum=")).code <
          irods_extra.SUCCESS →
      (cb.msiDataObjRepl dp
        ("backupRescName=" ++ rr ++ "++++verifyChksum=")).code ≠
          irods_errors.CAT_NOT_ROWS_FOUND →
      (cb.msiDataObjRepl dp
        ("backupRescName=" ++ rr ++ "++++verifyChksum=")).code ≠
          irods_errors.CAT_UNKNOWN_FILE →
      (cb.msiDataObjRepl dp
        ("backupRescName=" ++ rr ++ "++++verifyChksum=")).code ≠
          irods_errors.SYS_NOT_ALLOWED →
      (cb.msiDataObjRepl dp
        ("backupRescName=" ++ rr ++ "++++verifyChksum=")).code ≠
          irods_errors.SYS_RESC_DOES_NOT_EXIST →
      (cb.msiDataObjRepl dp
        ("backupRescName=" ++ rr ++ "++++verifyChksum=")).code ≠
          irods_errors.USER_CHKSUM_MISMATCH →
      (replication._replicate_with_path cb dp rr).1 =
        (cb.msiDataObjRepl dp
          ("backupRescName=" ++ rr ++ "++++verifyChksum=")).code ∧
      (replication._try_replicate cb thr dp rr).1.tasks.length = 1 ∧
      (replication._try_replicate cb thr dp rr).1.log.length = 1) := by
  constructor
  · rintro (hc | hc | hc | hc | hc) <;>
      simp [replication._try_replicate, replication._replicate_with_path,
        replication._resolve_replicate_issue, hst, hc, Fx.app, logFx, Fx.nil,
        irods_extra.SUCCESS, irods_errors.CAT_NOT_ROWS_FOUND,
        irods_errors.CAT_UNKNOWN_FILE, irods_errors.SYS_NOT_ALLOWED,
        irods_errors.SYS_RESC_DOES_NOT_EXIST, irods_errors.USER_CHKSUM_MISMATCH]
  · intro hneg h1 h2 h3 h4 h5
    simp only [irods_extra.SUCCESS] at hneg
    simp [replication._try_replicate, replication._replicate_with_path,
      replication._resolve_replicate_issue, hst, hneg, h1, h2, h3, h4, h5,
      Fx.app, logFx, irods_extra.SUCCESS, replication._sched_replication,
      replication._sched_repl_task, throttle.next_delay]

theorem sync_replication_failure_taxonomy_witness :
    (cbReplGone.msiDataObjRepl "/zone/home/alice/f"
      "backupRescName=rescB++++verifyChksum=").status = false ∧
    (replication._try_replicate cbReplGone 0 "/zone/home/alice/f"
      "rescB").1.tasks = [] ∧
    (replication._try_replicate cbReplTransient 0 "/zone/home/alice/f"
      "rescB").1.tasks.length = 1 :=
  ⟨rfl,
   ((sync_replication_failure_taxonomy cbReplGone "/zone/home/alice/f" "rescB"
      0 rfl).1 (Or.inr (Or.inr (Or.inr (Or.inl rfl))))).2.1,
   ((sync_replication_failure_taxonomy cbReplTransient "/zone/home/alice/f"
      "rescB" 0 rfl).2 (by decide) (by decide) (by decide) (by decide)
      (by decide) (by decide)).2.1⟩

lemma curRescChoice_ok (rows : List (String × String)) (hne : rows ≠ []) :
    ∃ v, residency.curRescChoice rows = .ok v := by
  cases rows with
  | nil => exact absurd rfl hne
  | cons r rest =>
    cases rest with
    | nil => exact ⟨some r.1, by simp [residency.curRescChoice, residency.pyIdx]⟩
    | cons r2 rest2 =>
      have hlen : ((r :: r2 :: rest2).length == 1) = false := by
        simp [List.length_cons]
      by_cases h1 : (r.2 != "1") = true
      · exact ⟨some r2.1, by simp [residency.curRescChoice, residency.pyIdx, hlen, h1]⟩
      · by_cases h2 : (r2.2 != "1") = true
        · exact ⟨some r.1,
            by simp [residency.curRescChoice, residency.pyIdx, hlen, h1, h2]⟩
        · exact ⟨none,
            by simp [residency.curRescChoice, residency.pyIdx, hlen, h1, h2]⟩

/-- C10: the replication-scheme resolver is only total when the catalog
returns at least one replica.  With no replicas its access to the first
element of the replica list is out of bounds, so the handler cannot
complete; with one replica it selects that replica's root resource; with
two, when one replica's status flag is not "1" it selects the other
replica's root resource; and with at least one replica the handler always
completes with an integer response. -/
theorem repl_scheme_requires_replica (cb : CB) (dp : String) :
    (residency._repl_status_rows cb dp = [] →
      residency.acSetRescSchemeForRepl cb dp =
        (.error "IndexError: list index out of range", Fx.nil)) ∧
    (∀ h st, residency._repl_status_rows cb dp = [(h, st)] →
      residency.curRescChoice ((residency._repl_status_rows cb dp).map
        (fun rec => (irods_extra.root_resc rec.1, rec.2))) =
          .ok (some (irods_extra.root_resc h))) ∧
    (∀ h1 s1 h2 s2,
      residency._repl_status_rows cb dp = [(h1, s1), (h2, s2)] →
      (s1 ≠ "1" →
        residency.curRescChoice ((residency._repl_status_rows cb dp).map
          (fun rec => (irods_extra.root_resc rec.1, rec.2))) =
            .ok (some (irods_extra.root_resc h2))) ∧
      (s1 = "1" → s2 ≠ "1" →
        residency.curRescChoice ((residency._repl_status_rows cb dp).map
          (fun rec => (irods_extra.root_resc rec.1, rec.2))) =
            .ok (some (irods_extra.root_resc h1)))) ∧
    (residency._repl_status_rows cb dp ≠ [] →
      ∃ c, (residency.acSetRescSchemeForRepl cb dp).1 = .ok c) := by
  refine ⟨?_, ?_, ?_, ?_⟩
  · intro h
    simp [residency.acSetRescSchemeForRepl, h, residency.curRescChoice,
      residency.pyIdx]
  · intro h st hrows
    simp [hrows, residency.curRescChoice, residency.pyIdx]
  · intro h1 s1 h2 s2 hrows
    constructor
    · intro hs1
      simp [hrows, residency.curRescChoice, residency.pyIdx, hs1]
    · intro hs1 hs2
      simp [hrows, residency.curRescChoice, residency.pyIdx, hs1, hs2]
  · intro hne
    have hne2 : (residency._repl_status_rows cb dp).map
        (fun rec => (irods_extra.root_resc rec.1, rec.2)) ≠ [] := by
      simpa using hne
    obtain ⟨v, hv⟩ := curRescChoice_ok _ hne2
    simp only [residency.acSetRescSchemeForRepl, hv]
    split
    · exact ⟨_, rfl⟩
    · exact ⟨_, rfl⟩

theorem repl_scheme_requires_replica_witness :
    residency.acSetRescSchemeForRepl cbNoRepl "/zone/x/y" =
      (.error "IndexError: list index out of range", Fx.nil) ∧
    residency.curRescChoice
      ((residency._repl_status_rows cbOneRepl "/zone/home/alice/f").map
        (fun rec => (irods_extra.root_resc rec.1, rec.2))) =
          .ok (some (irods_extra.root_resc "rescA;ufs1")) ∧
    ∃ c, (residency.acSetRescSchemeForRepl cbOneRepl "/zone/home/alice/f").1 =
      .ok c :=
  ⟨(repl_scheme_requires_replica cbNoRepl "/zone/x/y").1 rfl,
   (repl_scheme_requires_replica cbOneRepl "/zone/home/alice/f").2.1
     "rescA;ufs1" "1" rfl,
   (repl_scheme_requires_replica cbOneRepl "/zone/home/alice/f").2.2.2
     (by decide)⟩
